import Mathlib

/-!
Shallow embedding of the pihole-toggle service.

The repository ships two variants of the server:
* `src/server.js` — the single-instance variant (global session cache,
  `authenticate` / `getStatus` / `setBlocking`), embedded below in
  namespace `Single`;
* the multi-instance server variant included in the repository documents
  (per-URL session cache, `authenticate(instance)` / `getInstanceStatus` /
  `getAllStatus`), embedded below in namespace `Multi`.

JavaScript values flowing through the HTTP layer are modelled by the
inductive `Json` (numbers as `Int`); times are `Int` milliseconds; the
network is an oracle list of upstream outcomes consumed in call order, and
every operation additionally returns the list of requests it issued, so
that theorems can count attempts and inspect headers and bodies.
-/

/-- A JavaScript/JSON value as it appears in the server: the result of
`JSON.parse`, plus `undefined` for the result of reading an absent property. -/
inductive Json where
  | null : Json
  | undefined : Json
  | bool : Bool → Json
  | num : Int → Json
  | str : String → Json
  | obj : List (String × Json) → Json
deriving Repr

/-- JavaScript truthiness of a value. -/
def Json.truthy : Json → Bool
  | .null => false
  | .undefined => false
  | .bool b => b
  | .num n => n != 0
  | .str s => s != ""
  | .obj _ => true

/-- Field lookup in an object literal; absent fields read as `undefined`. -/
def Json.lookupField : List (String × Json) → String → Json
  | [], _ => .undefined
  | (k, v) :: rest, key => if k = key then v else Json.lookupField rest key

/-- Property access with optional chaining (`a?.b`): `null`/`undefined`
bases and non-object bases yield `undefined` without throwing. -/
def Json.getOpt : Json → String → Json
  | .obj fs, key => Json.lookupField fs key
  | _, _ => .undefined

/-- Plain property access (`a.b`): reading a property of `null` or
`undefined` throws a TypeError, which we model as an error value. -/
def Json.getE : Json → String → Except String Json
  | .null, key => .error ("TypeError: cannot read properties of null reading " ++ key)
  | .undefined, key => .error ("TypeError: cannot read properties of undefined reading " ++ key)
  | j, key => .ok (j.getOpt key)

/-- The JavaScript idiom `x || d` for a numeric field `x` with numeric
default `d` (the fields this server reads this way are numbers or absent
per the appliance API contract). -/
def Json.numOr (j : Json) (d : Int) : Int :=
  match j with
  | .num n => if n = 0 then d else n
  | _ => d

/-- Strict string comparison `x === "s"`. -/
def Json.isStr (j : Json) (s : String) : Bool :=
  match j with
  | .str t => t == s
  | _ => false

mutual

/-- `JSON.stringify`, used by the server when building error messages. -/
def Json.stringify : Json → String
  | .null => "null"
  | .undefined => "undefined"
  | .bool true => "true"
  | .bool false => "false"
  | .num n => toString n
  | .str s => "\"" ++ s ++ "\""
  | .obj fs => "\x7b" ++ Json.stringifyFields fs ++ "\x7d"

/-- Render the comma-separated field list of an object. -/
def Json.stringifyFields : List (String × Json) → String
  | [] => ""
  | [(k, v)] => "\"" ++ k ++ "\":" ++ Json.stringify v
  | (k, v) :: rest => "\"" ++ k ++ "\":" ++ Json.stringify v ++ "," ++ Json.stringifyFields rest

end

/-- One upstream HTTP response as observed by `request`: the status code,
the `location` header (for redirects) and the body after the
`JSON.parse`-with-fallback step (an unparsable body stays a `Json.str`). -/
structure Response where
  status : Nat
  location : Option String
  data : Json
deriving Repr

/-- One network outcome: either a response or a rejection (connection
error or timeout) with its message. -/
abbrev NetRes := Except String Response

/-- A record of one outbound request: URL, method, headers and JSON body
(header values are `Json` because the server passes session fields through
unchecked). -/
structure Req where
  url : String
  method : String
  headers : List (String × Json)
  body : Option Json
deriving Repr

/-- Statuses the transport treats as redirects: `[301, 302, 307, 308]`. -/
def isRedirectStatus (s : Nat) : Bool :=
  s == 301 || s == 302 || s == 307 || s == 308

/-- The transport `request(url, options, body, redirectCount)`: rejects
with `Too many redirects` once `redirectCount > 5`, otherwise consumes the
next oracle outcome; a redirect status with a `location` header recurses
on the redirect target with `redirectCount + 1`.  Returns the outcome, the
unconsumed oracle suffix, and the log of requests issued. -/
def request (net : List NetRes) (url method : String) (headers : List (String × Json))
    (body : Option Json) (redirectCount : Nat) :
    Except String Response × List NetRes × List Req :=
  if redirectCount > 5 then
    (.error "Too many redirects", net, [])
  else
    match net with
    | [] => (.error "socket hang up", [], [⟨url, method, headers, body⟩])
    | r :: rest =>
      match r with
      | .error e => (.error e, rest, [⟨url, method, headers, body⟩])
      | .ok resp =>
        if isRedirectStatus resp.status ∧ resp.location.isSome then
          match resp.location with
          | some loc =>
            let out := request rest loc method headers body (redirectCount + 1)
            (out.1, out.2.1, ⟨url, method, headers, body⟩ :: out.2.2)
          | none => (.ok resp, rest, [⟨url, method, headers, body⟩])
        else (.ok resp, rest, [⟨url, method, headers, body⟩])

/-- Session credential pair issued by the appliance login endpoint.  The
server copies `res.data.session.sid` / `.csrf` without validating their
presence, so the fields are raw `Json` values (possibly `undefined`). -/
structure Session where
  sid : Json
  csrf : Json
deriving Repr

namespace Single

/-- The single-instance server's environment configuration
(`PIHOLE_URL`, `PIHOLE_PASSWORD`). -/
structure Config where
  url : String
  password : String
deriving Repr

/-- The module-level session cache: `cachedSession` and
`sessionExpiresAt` (initially `null` and `0`). -/
structure SState where
  cachedSession : Option Session
  sessionExpiresAt : Int
deriving Repr

/-- The login path of `authenticate`: POST the password to
`{PIHOLE_URL}/api/auth`; on a non-200 status or a body without a truthy
`session.valid`, clear the cache and throw
`Authentication failed: <stringified body>`; on success cache the
credential with expiry `now + (validity || 300) * 1000`. -/
def authLogin (cfg : Config) (now : Int) (st : SState) (net : List NetRes) :
    Except String Session × SState × List NetRes × List Req :=
  match request net (cfg.url ++ "/api/auth") "POST"
      [("Content-Type", Json.str "application/json")]
      (some (Json.obj [("password", Json.str cfg.password)])) 0 with
  | (.error e, net2, log) => (.error e, st, net2, log)
  | (.ok res, net2, log) =>
    if res.status ≠ 200 ∨ ((res.data.getOpt "session").getOpt "valid").truthy = false then
      (.error ("Authentication failed: " ++ Json.stringify res.data), ⟨none, 0⟩, net2, log)
    else
      let sessionObj := res.data.getOpt "session"
      let validityMs := (Json.numOr (sessionObj.getOpt "validity") 300) * 1000
      let s : Session := ⟨sessionObj.getOpt "sid", sessionObj.getOpt "csrf"⟩
      (.ok s, ⟨some s, now + validityMs⟩, net2, log)

/-- `authenticate()`: return the cached session if present and still
valid with the 30 s buffer (`Date.now() < sessionExpiresAt - 30000`),
otherwise perform a fresh login. -/
def authenticate (cfg : Config) (now : Int) (st : SState) (net : List NetRes) :
    Except String Session × SState × List NetRes × List Req :=
  match st.cachedSession with
  | some s =>
    if now < st.sessionExpiresAt - 30000 then (.ok s, st, net, [])
    else authLogin cfg now st net
  | none => authLogin cfg now st net

/-- `getStatus(retry = true)`: authenticate, GET
`{PIHOLE_URL}/api/dns/blocking` with header `X-FTL-SID`; on a 401 with
`retry` still true, clear the cache and recurse once with `retry = false`;
otherwise return `res.data` without inspecting the status code. -/
def getStatus (cfg : Config) (now : Int) (st : SState) (net : List NetRes) (retry : Bool) :
    Except String Json × SState × List NetRes × List Req :=
  match authenticate cfg now st net with
  | (.error e, st2, net2, log) => (.error e, st2, net2, log)
  | (.ok s, st2, net2, log) =>
    match request net2 (cfg.url ++ "/api/dns/blocking") "GET"
        [("X-FTL-SID", s.sid)] none 0 with
    | (.error e, net3, log2) => (.error e, st2, net3, log ++ log2)
    | (.ok res, net3, log2) =>
      if h : res.status = 401 ∧ retry = true then
        let out := getStatus cfg now ⟨none, 0⟩ net3 false
        (out.1, out.2.1, out.2.2.1, log ++ log2 ++ out.2.2.2)
      else (.ok res.data, st2, net3, log ++ log2)
termination_by (if retry then 1 else 0)
decreasing_by simp [h.2]

/-- JavaScript truthiness of the `timerSeconds` argument: `null` and `0`
are falsy, any other number is truthy. -/
def timerTruthy : Option Int → Bool
  | none => false
  | some t => t != 0

/-- The POST body built by `setBlocking`: `{blocking}` with a `timer`
field added only when disabling with a truthy `timerSeconds`
(`if (!enabled && timerSeconds) body.timer = timerSeconds`). -/
def blockingBody (enabled : Bool) (timerSeconds : Option Int) : Json :=
  Json.obj ([("blocking", Json.bool enabled)] ++
    (if enabled = false ∧ timerTruthy timerSeconds = true then
      [("timer", Json.num (timerSeconds.getD 0))] else []))

/-- `setBlocking(enabled, timerSeconds = null, retry = true)`:
authenticate, POST the desired state with `X-FTL-SID` and `X-FTL-CSRF`
headers; on a 401 with `retry` still true, clear the cache and recurse
once with `retry = false`; on any other non-200 throw
`Failed to set blocking: <stringified body>`. -/
def setBlocking (cfg : Config) (now : Int) (st : SState) (net : List NetRes)
    (enabled : Bool) (timerSeconds : Option Int) (retry : Bool) :
    Except String Json × SState × List NetRes × List Req :=
  match authenticate cfg now st net with
  | (.error e, st2, net2, log) => (.error e, st2, net2, log)
  | (.ok s, st2, net2, log) =>
    match request net2 (cfg.url ++ "/api/dns/blocking") "POST"
        [("Content-Type", Json.str "application/json"),
         ("X-FTL-SID", s.sid), ("X-FTL-CSRF", s.csrf)]
        (some (blockingBody enabled timerSeconds)) 0 with
    | (.error e, net3, log2) => (.error e, st2, net3, log ++ log2)
    | (.ok res, net3, log2) =>
      if h : res.status = 401 ∧ retry = true then
        let out := setBlocking cfg now ⟨none, 0⟩ net3 enabled timerSeconds false
        (out.1, out.2.1, out.2.2.1, log ++ log2 ++ out.2.2.2)
      else if res.status ≠ 200 then
        (.error ("Failed to set blocking: " ++ Json.stringify res.data), st2, net3, log ++ log2)
      else (.ok res.data, st2, net3, log ++ log2)
termination_by (if retry then 1 else 0)
decreasing_by simp [h.2]

end Single

namespace Multi

/-- One entry of `PIHOLE_INSTANCES`: display name, base URL (the cache
key) and app password. -/
structure PiholeInstance where
  name : String
  url : String
  password : String
deriving Repr

/-- One entry of the per-instance session cache: the credential pair and
its expiry timestamp. -/
structure CacheEntry where
  session : Session
  expiresAt : Int
deriving Repr

/-- The `sessionCache` Map, keyed by instance URL. -/
abbrev Cache := List (String × CacheEntry)

/-- `sessionCache.get(key)`. -/
def cacheGet : Cache → String → Option CacheEntry
  | [], _ => none
  | (k, v) :: rest, key => if k = key then some v else cacheGet rest key

/-- `sessionCache.delete(key)`. -/
def cacheDelete (c : Cache) (key : String) : Cache :=
  c.filter (fun kv => kv.1 != key)

/-- `sessionCache.set(key, value)`. -/
def cacheSet (c : Cache) (key : String) (v : CacheEntry) : Cache :=
  cacheDelete c key ++ [(key, v)]

/-- The login path of the multi-instance `authenticate(instance)`: POST
the password to `{instance.url}/api/auth`; on failure delete the cache
entry for this URL and throw `Authentication failed for <name>`; on
success cache the credential with expiry `now + (validity || 300) * 1000`. -/
def authLogin (now : Int) (cache : Cache) (inst : PiholeInstance) (net : List NetRes) :
    Except String Session × Cache × List NetRes × List Req :=
  match request net (inst.url ++ "/api/auth") "POST"
      [("Content-Type", Json.str "application/json")]
      (some (Json.obj [("password", Json.str inst.password)])) 0 with
  | (.error e, net2, log) => (.error e, cache, net2, log)
  | (.ok res, net2, log) =>
    if res.status ≠ 200 ∨ ((res.data.getOpt "session").getOpt "valid").truthy = false then
      (.error ("Authentication failed for " ++ inst.name), cacheDelete cache inst.url, net2, log)
    else
      let sessionObj := res.data.getOpt "session"
      let validityMs := (Json.numOr (sessionObj.getOpt "validity") 300) * 1000
      let s : Session := ⟨sessionObj.getOpt "sid", sessionObj.getOpt "csrf"⟩
      (.ok s, cacheSet cache inst.url ⟨s, now + validityMs⟩, net2, log)

/-- `authenticate(instance)`: return the cached session for
`instance.url` if still valid with the 30 s buffer, otherwise perform a
fresh login. -/
def authenticate (now : Int) (cache : Cache) (inst : PiholeInstance) (net : List NetRes) :
    Except String Session × Cache × List NetRes × List Req :=
  match cacheGet cache inst.url with
  | some cached =>
    if now < cached.expiresAt - 30000 then (.ok cached.session, cache, net, [])
    else authLogin now cache inst net
  | none => authLogin now cache inst net

/-- The per-instance status record returned by `getInstanceStatus`. -/
structure InstanceStatus where
  name : String
  url : String
  blocking : Option Bool
  timer : Int
  totalQueries : Int
  blockedQueries : Int
  percentBlocked : Int
  error : Option String
deriving Repr

/-- The record built by `getInstanceStatus`'s catch clause: `blocking`
null, zeroed metrics, `error` set to the failure message. -/
def errorStatus (inst : PiholeInstance) (msg : String) : InstanceStatus :=
  ⟨inst.name, inst.url, none, 0, 0, 0, 0, some msg⟩

/-- `getInstanceStatus(instance, retry = true)`: inside a try/catch,
authenticate, then GET `/api/dns/blocking` and `/api/stats/summary`
(issued in parallel in the source; the oracle serializes them in this
order) with header `X-FTL-SID`; if either read returns 401 and `retry` is
still true, delete the cache entry and recurse once with `retry = false`;
otherwise build the status record; any thrown error is converted by the
catch clause into `errorStatus`. -/
def getInstanceStatus (now : Int) (cache : Cache) (inst : PiholeInstance)
    (net : List NetRes) (retry : Bool) :
    InstanceStatus × Cache × List NetRes × List Req :=
  match authenticate now cache inst net with
  | (.error e, c2, net2, log) => (errorStatus inst e, c2, net2, log)
  | (.ok s, c2, net2, log) =>
    match request net2 (inst.url ++ "/api/dns/blocking") "GET"
        [("X-FTL-SID", s.sid)] none 0 with
    | (.error e, net3, log2) => (errorStatus inst e, c2, net3, log ++ log2)
    | (.ok blockingRes, net3, log2) =>
      match request net3 (inst.url ++ "/api/stats/summary") "GET"
          [("X-FTL-SID", s.sid)] none 0 with
      | (.error e, net4, log3) => (errorStatus inst e, c2, net4, log ++ log2 ++ log3)
      | (.ok statsRes, net4, log3) =>
        if h : (blockingRes.status = 401 ∨ statsRes.status = 401) ∧ retry = true then
          let out := getInstanceStatus now (cacheDelete c2 inst.url) inst net4 false
          (out.1, out.2.1, out.2.2.1, log ++ log2 ++ log3 ++ out.2.2.2)
        else
          match blockingRes.data.getE "blocking" with
          | .error e => (errorStatus inst e, c2, net4, log ++ log2 ++ log3)
          | .ok blockingField =>
            let stats := if (statsRes.data.getOpt "queries").truthy = true
              then statsRes.data.getOpt "queries" else Json.obj []
            (⟨inst.name, inst.url,
              some (blockingField.isStr "enabled"),
              Json.numOr (blockingRes.data.getOpt "timer") 0,
              Json.numOr (stats.getOpt "total") 0,
              Json.numOr (stats.getOpt "blocked") 0,
              Json.numOr (stats.getOpt "percent_blocked") 0,
              none⟩, c2, net4, log ++ log2 ++ log3)
termination_by (if retry then 1 else 0)
decreasing_by simp [h.2]

/-- `getAllStatus()`: `Promise.all(INSTANCES.map(inst =>
getInstanceStatus(inst)))` — one status fetch per configured instance,
results collected in configuration order.  Each instance consumes its own
network oracle; the shared cache is threaded through. -/
def getAllStatus (now : Int) (cache : Cache) :
    List (PiholeInstance × List NetRes) → List InstanceStatus × Cache
  | [] => ([], cache)
  | (inst, net) :: rest =>
    let out := getInstanceStatus now cache inst net true
    let others := getAllStatus now out.2.1 rest
    (out.1 :: others.1, others.2)

end Multi

/-! ## Transport lemmas -/

/-- Every request that is actually attempted (redirect budget not yet
exhausted) logs itself first, whatever the oracle holds. -/
theorem request_log_head (net : List NetRes) (url method : String)
    (headers : List (String × Json)) (body : Option Json) :
    ((request net url method headers body 0).2.2).head? = some ⟨url, method, headers, body⟩ := by
  cases net with
  | nil => simp [request]
  | cons r rest =>
    cases r with
    | error e => simp [request]
    | ok resp =>
      simp only [request]
      split
      · omega
      · split
        · split
          · simp
          · simp
        · simp

/-- A non-redirecting successful response is returned as is, consuming one
oracle entry and logging one request. -/
theorem request_ok (r : Response) (rest : List NetRes) (url method : String)
    (headers : List (String × Json)) (body : Option Json) (hloc : r.location = none) :
    request (.ok r :: rest) url method headers body 0 =
      (.ok r, rest, [⟨url, method, headers, body⟩]) := by
  simp [request, hloc]

/-- A rejected request propagates the rejection, consuming one oracle
entry and logging one request. -/
theorem request_err (e : String) (rest : List NetRes) (url method : String)
    (headers : List (String × Json)) (body : Option Json) :
    request (.error e :: rest) url method headers body 0 =
      (.error e, rest, [⟨url, method, headers, body⟩]) := by
  simp [request]

/-! ## Single-instance authenticator lemmas -/

/-- The login path always issues the auth POST first. -/
theorem single_authLogin_log_head (cfg : Single.Config) (now : Int) (st : Single.SState)
    (net : List NetRes) :
    ((Single.authLogin cfg now st net).2.2.2).head? =
      some ⟨cfg.url ++ "/api/auth", "POST", [("Content-Type", Json.str "application/json")],
        some (Json.obj [("password", Json.str cfg.password)])⟩ := by
  have h := request_log_head net (cfg.url ++ "/api/auth") "POST"
    [("Content-Type", Json.str "application/json")]
    (some (Json.obj [("password", Json.str cfg.password)]))
  unfold Single.authLogin
  rcases hreq : request net (cfg.url ++ "/api/auth") "POST"
    [("Content-Type", Json.str "application/json")]
    (some (Json.obj [("password", Json.str cfg.password)])) 0 with ⟨res, net2, log⟩
  rw [hreq] at h
  cases res with
  | error e => simpa using h
  | ok r =>
    simp only []
    split
    · simpa using h
    · simpa using h

/-- A successful login (HTTP 200 and truthy `session.valid`) caches the
credential read off the session object, with expiry
`now + (validity || 300) * 1000`. -/
theorem single_authLogin_ok (cfg : Single.Config) (now : Int) (st : Single.SState)
    (a : Response) (rest : List NetRes) (hloc : a.location = none) (hst : a.status = 200)
    (hv : ((a.data.getOpt "session").getOpt "valid").truthy = true) :
    Single.authLogin cfg now st (.ok a :: rest) =
      (.ok ⟨(a.data.getOpt "session").getOpt "sid", (a.data.getOpt "session").getOpt "csrf"⟩,
       ⟨some ⟨(a.data.getOpt "session").getOpt "sid", (a.data.getOpt "session").getOpt "csrf"⟩,
        now + (Json.numOr ((a.data.getOpt "session").getOpt "validity") 300) * 1000⟩,
       rest,
       [⟨cfg.url ++ "/api/auth", "POST", [("Content-Type", Json.str "application/json")],
         some (Json.obj [("password", Json.str cfg.password)])⟩]) := by
  unfold Single.authLogin
  rw [request_ok a rest _ _ _ _ hloc]
  simp [hst, hv]

/-- A failed login (non-200 status or missing/falsy `session.valid`)
clears the cache and throws, with the stringified response in the
message. -/
theorem single_authLogin_fail (cfg : Single.Config) (now : Int) (st : Single.SState)
    (a : Response) (rest : List NetRes) (hloc : a.location = none)
    (hbad : a.status ≠ 200 ∨ ((a.data.getOpt "session").getOpt "valid").truthy = false) :
    Single.authLogin cfg now st (.ok a :: rest) =
      (.error ("Authentication failed: " ++ Json.stringify a.data), ⟨none, 0⟩, rest,
       [⟨cfg.url ++ "/api/auth", "POST", [("Content-Type", Json.str "application/json")],
         some (Json.obj [("password", Json.str cfg.password)])⟩]) := by
  unfold Single.authLogin
  rw [request_ok a rest _ _ _ _ hloc]
  simp only []
  rw [if_pos hbad]

/-- With no usable cache, `authenticate` is exactly the login path. -/
theorem single_authenticate_miss (cfg : Single.Config) (now : Int) (st : Single.SState)
    (net : List NetRes)
    (h : st.cachedSession = none ∨ ¬ now < st.sessionExpiresAt - 30000) :
    Single.authenticate cfg now st net = Single.authLogin cfg now st net := by
  rcases h with h | h
  · simp [Single.authenticate, h]
  · cases hc : st.cachedSession with
    | none => simp [Single.authenticate, hc]
    | some s => simp [Single.authenticate, hc, h]

/-- With a valid cached session, `authenticate` returns it untouched. -/
theorem single_authenticate_hit (cfg : Single.Config) (now : Int) (st : Single.SState)
    (s : Session) (net : List NetRes)
    (hc : st.cachedSession = some s) (hv : now < st.sessionExpiresAt - 30000) :
    Single.authenticate cfg now st net = (.ok s, st, net, []) := by
  simp [Single.authenticate, hc, hv]

/-! ## C2 -/

/-- C2: with a cached session present, `authenticate` returns the cached
credential without performing any login call if and only if the current
time is strictly below `sessionExpiresAt - 30000`; past that buffer, a
fresh login request to `/api/auth` is issued. -/
theorem spec_C2_cached_session_buffer (cfg : Single.Config) (now : Int)
    (st : Single.SState) (s : Session) (net : List NetRes)
    (h : st.cachedSession = some s) :
    (((Single.authenticate cfg now st net).2.2.2 = [] ∧
        (Single.authenticate cfg now st net).1 = .ok s) ↔
      now < st.sessionExpiresAt - 30000)
    ∧ (now < st.sessionExpiresAt - 30000 →
        Single.authenticate cfg now st net = (.ok s, st, net, []))
    ∧ (¬ now < st.sessionExpiresAt - 30000 →
        ((Single.authenticate cfg now st net).2.2.2).head? =
          some ⟨cfg.url ++ "/api/auth", "POST",
            [("Content-Type", Json.str "application/json")],
            some (Json.obj [("password", Json.str cfg.password)])⟩) := by
  by_cases hv : now < st.sessionExpiresAt - 30000
  · rw [single_authenticate_hit cfg now st s net h hv]
    refine ⟨by simp [hv], fun _ => rfl, fun hn => absurd hv hn⟩
  · rw [single_authenticate_miss cfg now st net (Or.inr hv)]
    have hhead := single_authLogin_log_head cfg now st net
    refine ⟨?_, fun hlt => absurd hlt hv, fun _ => hhead⟩
    constructor
    · intro ⟨hempty, _⟩
      rw [hempty] at hhead
      simp at hhead
    · intro hlt
      exact absurd hlt hv

/-- C2 witness at the documented boundary: a credential stored at t=0 with
validity 60 s (expiry 60000) is returned from cache at t=29000, and at
t=31000 a fresh login POST is issued instead. -/
theorem spec_C2_cached_session_buffer_witness :
    Single.authenticate ⟨"http://localhost", "pw"⟩ 29000
      ⟨some ⟨Json.str "s", Json.str "c"⟩, 60000⟩ [] =
      (.ok ⟨Json.str "s", Json.str "c"⟩, ⟨some ⟨Json.str "s", Json.str "c"⟩, 60000⟩, [], [])
    ∧ ((Single.authenticate ⟨"http://localhost", "pw"⟩ 31000
        ⟨some ⟨Json.str "s", Json.str "c"⟩, 60000⟩ []).2.2.2).head? =
      some ⟨"http://localhost/api/auth", "POST",
        [("Content-Type", Json.str "application/json")],
        some (Json.obj [("password", Json.str "pw")])⟩ := by
  constructor
  · exact (spec_C2_cached_session_buffer ⟨"http://localhost", "pw"⟩ 29000
      ⟨some ⟨Json.str "s", Json.str "c"⟩, 60000⟩ ⟨Json.str "s", Json.str "c"⟩ [] rfl).2.1
      (by norm_num)
  · exact (spec_C2_cached_session_buffer ⟨"http://localhost", "pw"⟩ 31000
      ⟨some ⟨Json.str "s", Json.str "c"⟩, 60000⟩ ⟨Json.str "s", Json.str "c"⟩ [] rfl).2.2
      (by norm_num)

/-! ## C3 -/

/-- C3 counterexample: a 200 login response whose session object carries
`valid: true` but neither `sid`, `csrf` nor `validity` is accepted — the
claim requires an authentication error for this body shape, but
`authenticate` returns an (undefined-field) credential instead. -/
theorem spec_C3_cex :
    (Single.authenticate ⟨"http://localhost", "pw"⟩ 0 ⟨none, 0⟩
      [.ok ⟨200, none, Json.obj [("session", Json.obj [("valid", Json.bool true)])]⟩]).1
      = .ok ⟨Json.undefined, Json.undefined⟩ := by
  rw [single_authenticate_miss _ _ _ _ (Or.inl rfl)]
  rw [single_authLogin_ok _ _ _ _ _ rfl rfl (by rfl)]
  rfl

/-- C3 amended: from any state that takes the login path (no cached
entry, or a cached entry past the safety buffer), `authenticate` raises
exactly when the response is not HTTP 200 with a truthy `session.valid`
(the presence of `sid`, `csrf` and `validity` is not validated); whenever
it raises on a received response, any stale cached entry is removed
(final state `⟨none, 0⟩`) and the error message carries the stringified
upstream body. -/
theorem spec_C3_amended (cfg : Single.Config) (now : Int) (st : Single.SState)
    (a : Response) (rest : List NetRes) (hloc : a.location = none)
    (hmiss : st.cachedSession = none ∨ ¬ now < st.sessionExpiresAt - 30000) :
    ((∃ e, (Single.authenticate cfg now st (.ok a :: rest)).1 = .error e) ↔
      (a.status ≠ 200 ∨ ((a.data.getOpt "session").getOpt "valid").truthy = false))
    ∧ ((a.status ≠ 200 ∨ ((a.data.getOpt "session").getOpt "valid").truthy = false) →
        Single.authenticate cfg now st (.ok a :: rest) =
          (.error ("Authentication failed: " ++ Json.stringify a.data), ⟨none, 0⟩, rest,
           [⟨cfg.url ++ "/api/auth", "POST", [("Content-Type", Json.str "application/json")],
             some (Json.obj [("password", Json.str cfg.password)])⟩])) := by
  have hauth := single_authenticate_miss cfg now st (.ok a :: rest) hmiss
  by_cases hbad : a.status ≠ 200 ∨ ((a.data.getOpt "session").getOpt "valid").truthy = false
  · rw [hauth, single_authLogin_fail cfg now _ a rest hloc hbad]
    exact ⟨⟨fun _ => hbad, fun _ => ⟨_, rfl⟩⟩, fun _ => rfl⟩
  · push_neg at hbad
    obtain ⟨hst, hv⟩ := hbad
    have hvt : ((a.data.getOpt "session").getOpt "valid").truthy = true := by
      cases hx : ((a.data.getOpt "session").getOpt "valid").truthy
      · exact absurd hx hv
      · rfl
    rw [hauth, single_authLogin_ok cfg now _ a rest hloc hst hvt]
    constructor
    · constructor
      · intro ⟨e, he⟩
        simp at he
      · intro hb
        rcases hb with hb | hb
        · exact absurd hst hb
        · rw [hvt] at hb
          exact absurd hb (by simp)
    · intro hb
      rcases hb with hb | hb
      · exact absurd hst hb
      · rw [hvt] at hb
        exact absurd hb (by simp)

/-- C3 amended witness: with a stale credential still cached (stored
expiry 60000, called at t=50000, inside the 30 s buffer), a 401 login
response raises `Authentication failed: ...` and the stale entry is
removed — the final state is exactly `⟨none, 0⟩`. -/
theorem spec_C3_amended_witness :
    Single.authenticate ⟨"http://localhost", "pw"⟩ 50000
      ⟨some ⟨Json.str "stale-sid", Json.str "stale-csrf"⟩, 60000⟩
      [.ok ⟨401, none, Json.obj [("error", Json.str "unauthorized")]⟩] =
      (.error ("Authentication failed: " ++
        Json.stringify (Json.obj [("error", Json.str "unauthorized")])), ⟨none, 0⟩, [],
       [⟨"http://localhost/api/auth", "POST", [("Content-Type", Json.str "application/json")],
         some (Json.obj [("password", Json.str "pw")])⟩]) := by
  exact (spec_C3_amended ⟨"http://localhost", "pw"⟩ 50000
    ⟨some ⟨Json.str "stale-sid", Json.str "stale-csrf"⟩, 60000⟩
    ⟨401, none, Json.obj [("error", Json.str "unauthorized")]⟩ [] rfl
    (Or.inr (by norm_num))).2 (by norm_num)

/-! ## C8 -/

/-- C8 counterexample: a successful login reporting `validity: 0` is
cached with expiry `now + 300000` (the `|| 300` default treats the
reported 0 as absent), not `now + 0 * 1000` as the claim requires. -/
theorem spec_C8_cex :
    (Single.authenticate ⟨"http://localhost", "pw"⟩ 1000 ⟨none, 0⟩
      [.ok ⟨200, none, Json.obj [("session", Json.obj [("valid", Json.bool true),
        ("sid", Json.str "s"), ("csrf", Json.str "c"),
        ("validity", Json.num 0)])]⟩]).2.1.sessionExpiresAt = 301000
    ∧ (301000 : Int) ≠ 1000 + 0 * 1000 := by
  constructor
  · rw [single_authenticate_miss _ _ _ _ (Or.inl rfl)]
    rw [single_authLogin_ok _ _ _ _ _ rfl rfl (by rfl)]
    rfl
  · norm_num

/-- C8 amended: a successful login caches the credential with expiry
`now + validity * 1000` when the backend reports a nonzero numeric
validity, and with the 300-second default when the validity field is
omitted or reported as 0 (the falsy-default `|| 300`). -/
theorem spec_C8_amended (cfg : Single.Config) (now : Int) (a : Response)
    (rest : List NetRes) (hloc : a.location = none) (hst : a.status = 200)
    (hv : ((a.data.getOpt "session").getOpt "valid").truthy = true) :
    (Single.authenticate cfg now ⟨none, 0⟩ (.ok a :: rest)).2.1.cachedSession =
      some ⟨(a.data.getOpt "session").getOpt "sid", (a.data.getOpt "session").getOpt "csrf"⟩
    ∧ (∀ v : Int, (a.data.getOpt "session").getOpt "validity" = Json.num v → v ≠ 0 →
        (Single.authenticate cfg now ⟨none, 0⟩ (.ok a :: rest)).2.1.sessionExpiresAt =
          now + v * 1000)
    ∧ ((a.data.getOpt "session").getOpt "validity" = Json.undefined ∨
        (a.data.getOpt "session").getOpt "validity" = Json.num 0 →
        (Single.authenticate cfg now ⟨none, 0⟩ (.ok a :: rest)).2.1.sessionExpiresAt =
          now + 300 * 1000) := by
  rw [single_authenticate_miss _ _ _ _ (Or.inl rfl),
    single_authLogin_ok cfg now _ a rest hloc hst hv]
  refine ⟨rfl, ?_, ?_⟩
  · intro v hval hne
    simp [hval, Json.numOr, hne]
  · intro hval
    rcases hval with hval | hval <;> simp [hval, Json.numOr]

/-- C8 amended witness: validity 60 yields expiry `now + 60000`; an
omitted validity yields expiry `now + 300000`. -/
theorem spec_C8_amended_witness :
    (Single.authenticate ⟨"http://localhost", "pw"⟩ 1000 ⟨none, 0⟩
      [.ok ⟨200, none, Json.obj [("session", Json.obj [("valid", Json.bool true),
        ("sid", Json.str "s"), ("csrf", Json.str "c"),
        ("validity", Json.num 60)])]⟩]).2.1.sessionExpiresAt = 1000 + 60 * 1000
    ∧ (Single.authenticate ⟨"http://localhost", "pw"⟩ 1000 ⟨none, 0⟩
      [.ok ⟨200, none, Json.obj [("session", Json.obj [("valid", Json.bool true),
        ("sid", Json.str "s"), ("csrf", Json.str "c")])]⟩]).2.1.sessionExpiresAt =
      1000 + 300 * 1000 := by
  constructor
  · exact (spec_C8_amended ⟨"http://localhost", "pw"⟩ 1000 _ [] rfl rfl (by rfl)).2.1
      60 (by rfl) (by norm_num)
  · exact (spec_C8_amended ⟨"http://localhost", "pw"⟩ 1000 _ [] rfl rfl (by rfl)).2.2
      (Or.inl (by rfl))

/-! ## C7 -/

/-- With a valid cached session, `setBlocking` always issues the POST to
`/api/dns/blocking` first, carrying `X-FTL-SID` and `X-FTL-CSRF` headers
and the `blockingBody` payload. -/
theorem single_setBlocking_first_request (cfg : Single.Config) (now : Int) (s : Session)
    (exp : Int) (net : List NetRes) (enabled : Bool) (t : Option Int) (retry : Bool)
    (hv : now < exp - 30000) :
    ((Single.setBlocking cfg now ⟨some s, exp⟩ net enabled t retry).2.2.2).head? =
      some ⟨cfg.url ++ "/api/dns/blocking", "POST",
        [("Content-Type", Json.str "application/json"),
         ("X-FTL-SID", s.sid), ("X-FTL-CSRF", s.csrf)],
        some (Single.blockingBody enabled t)⟩ := by
  rw [Single.setBlocking.eq_def]
  rw [single_authenticate_hit cfg now ⟨some s, exp⟩ s net rfl hv]
  have hhead := request_log_head net (cfg.url ++ "/api/dns/blocking") "POST"
    [("Content-Type", Json.str "application/json"), ("X-FTL-SID", s.sid), ("X-FTL-CSRF", s.csrf)]
    (some (Single.blockingBody enabled t))
  rcases hreq : request net (cfg.url ++ "/api/dns/blocking") "POST"
    [("Content-Type", Json.str "application/json"), ("X-FTL-SID", s.sid), ("X-FTL-CSRF", s.csrf)]
    (some (Single.blockingBody enabled t)) 0 with ⟨res, net3, log2⟩
  rw [hreq] at hhead
  simp only [hreq]
  cases res with
  | error e =>
    dsimp only
    simpa using hhead
  | ok r =>
    dsimp only
    cases log2 with
    | nil => simp at hhead
    | cons q qs =>
      simp only [List.head?_cons, Option.some.injEq] at hhead
      split
      · simp [hhead]
      · split
        · simp [hhead]
        · simp [hhead]

/-- C7: the POST body of every `setBlocking` call contains the `blocking`
flag, and a `timer` field exactly when disabling with a positive duration;
the request carries both `X-FTL-SID` and `X-FTL-CSRF` headers (call sites
only ever pass a null or nonnegative `timerSeconds`, covered by the four
cases below). -/
theorem spec_C7_set_blocking_payload (cfg : Single.Config) (now : Int) (s : Session)
    (exp : Int) (net : List NetRes) (enabled : Bool) (t : Option Int) (retry : Bool)
    (hv : now < exp - 30000) :
    (∀ x : Int, enabled = false → t = some x → 0 < x →
      ((Single.setBlocking cfg now ⟨some s, exp⟩ net enabled t retry).2.2.2).head? =
        some ⟨cfg.url ++ "/api/dns/blocking", "POST",
          [("Content-Type", Json.str "application/json"),
           ("X-FTL-SID", s.sid), ("X-FTL-CSRF", s.csrf)],
          some (Json.obj [("blocking", Json.bool false), ("timer", Json.num x)])⟩)
    ∧ (enabled = true →
      ((Single.setBlocking cfg now ⟨some s, exp⟩ net enabled t retry).2.2.2).head? =
        some ⟨cfg.url ++ "/api/dns/blocking", "POST",
          [("Content-Type", Json.str "application/json"),
           ("X-FTL-SID", s.sid), ("X-FTL-CSRF", s.csrf)],
          some (Json.obj [("blocking", Json.bool true)])⟩)
    ∧ (t = none →
      ((Single.setBlocking cfg now ⟨some s, exp⟩ net enabled t retry).2.2.2).head? =
        some ⟨cfg.url ++ "/api/dns/blocking", "POST",
          [("Content-Type", Json.str "application/json"),
           ("X-FTL-SID", s.sid), ("X-FTL-CSRF", s.csrf)],
          some (Json.obj [("blocking", Json.bool enabled)])⟩)
    ∧ (t = some 0 →
      ((Single.setBlocking cfg now ⟨some s, exp⟩ net enabled t retry).2.2.2).head? =
        some ⟨cfg.url ++ "/api/dns/blocking", "POST",
          [("Content-Type", Json.str "application/json"),
           ("X-FTL-SID", s.sid), ("X-FTL-CSRF", s.csrf)],
          some (Json.obj [("blocking", Json.bool enabled)])⟩) := by
  refine ⟨?_, ?_, ?_, ?_⟩
  · intro x he ht hx
    subst he; subst ht
    rw [single_setBlocking_first_request cfg now s exp net false (some x) retry hv]
    have hxne : x ≠ 0 := by omega
    simp [Single.blockingBody, Single.timerTruthy, hxne]
  · intro he
    subst he
    rw [single_setBlocking_first_request cfg now s exp net true t retry hv]
    simp [Single.blockingBody]
  · intro ht
    subst ht
    rw [single_setBlocking_first_request cfg now s exp net enabled none retry hv]
    simp [Single.blockingBody, Single.timerTruthy]
  · intro ht
    subst ht
    rw [single_setBlocking_first_request cfg now s exp net enabled (some 0) retry hv]
    simp [Single.blockingBody, Single.timerTruthy]

/-- C7 witness: disabling for 1800 s with a cached session POSTs
`{blocking: false, timer: 1800}` with both session headers; enabling
POSTs `{blocking: true}` with no timer. -/
theorem spec_C7_set_blocking_payload_witness :
    ((Single.setBlocking ⟨"http://localhost", "pw"⟩ 0
        ⟨some ⟨Json.str "sid1", Json.str "csrf1"⟩, 60000⟩ [] false (some 1800) true).2.2.2).head? =
      some ⟨"http://localhost/api/dns/blocking", "POST",
        [("Content-Type", Json.str "application/json"),
         ("X-FTL-SID", Json.str "sid1"), ("X-FTL-CSRF", Json.str "csrf1")],
        some (Json.obj [("blocking", Json.bool false), ("timer", Json.num 1800)])⟩
    ∧ ((Single.setBlocking ⟨"http://localhost", "pw"⟩ 0
        ⟨some ⟨Json.str "sid1", Json.str "csrf1"⟩, 60000⟩ [] true none true).2.2.2).head? =
      some ⟨"http://localhost/api/dns/blocking", "POST",
        [("Content-Type", Json.str "application/json"),
         ("X-FTL-SID", Json.str "sid1"), ("X-FTL-CSRF", Json.str "csrf1")],
        some (Json.obj [("blocking", Json.bool true)])⟩ := by
  constructor
  · exact (spec_C7_set_blocking_payload ⟨"http://localhost", "pw"⟩ 0
      ⟨Json.str "sid1", Json.str "csrf1"⟩ 60000 [] false (some 1800) true
      (by norm_num)).1 1800 rfl rfl (by norm_num)
  · exact (spec_C7_set_blocking_payload ⟨"http://localhost", "pw"⟩ 0
      ⟨Json.str "sid1", Json.str "csrf1"⟩ 60000 [] true none true
      (by norm_num)).2.1 rfl

/-! ## C10 -/

/-- C10: with a valid cached session, `getStatus` returns the response
body as its result for every non-401 status (no status inspection: a 500
is returned as if it were a successful status), and with retry already
exhausted it does so for every status including a second 401. -/
theorem spec_C10_status_passthrough (cfg : Single.Config) (now : Int) (s : Session)
    (exp : Int) (r : Response) (rest : List NetRes)
    (hv : now < exp - 30000) (hloc : r.location = none) :
    (∀ retry : Bool, r.status ≠ 401 →
      Single.getStatus cfg now ⟨some s, exp⟩ (.ok r :: rest) retry =
        (.ok r.data, ⟨some s, exp⟩, rest,
         [⟨cfg.url ++ "/api/dns/blocking", "GET", [("X-FTL-SID", s.sid)], none⟩]))
    ∧ (Single.getStatus cfg now ⟨some s, exp⟩ (.ok r :: rest) false =
        (.ok r.data, ⟨some s, exp⟩, rest,
         [⟨cfg.url ++ "/api/dns/blocking", "GET", [("X-FTL-SID", s.sid)], none⟩])) := by
  constructor
  · intro retry hne
    rw [Single.getStatus.eq_def]
    rw [single_authenticate_hit cfg now ⟨some s, exp⟩ s _ rfl hv]
    simp only []
    rw [request_ok r rest _ _ _ _ hloc]
    simp [hne]
  · rw [Single.getStatus.eq_def]
    rw [single_authenticate_hit cfg now ⟨some s, exp⟩ s _ rfl hv]
    simp only []
    rw [request_ok r rest _ _ _ _ hloc]
    simp

/-- C10 witness: a 500 error body and a second 401 are both returned as
data, not raised. -/
theorem spec_C10_status_passthrough_witness :
    Single.getStatus ⟨"http://localhost", "pw"⟩ 0
      ⟨some ⟨Json.str "sid1", Json.str "csrf1"⟩, 60000⟩
      [.ok ⟨500, none, Json.obj [("error", Json.str "boom")]⟩] true =
      (.ok (Json.obj [("error", Json.str "boom")]),
       ⟨some ⟨Json.str "sid1", Json.str "csrf1"⟩, 60000⟩, [],
       [⟨"http://localhost/api/dns/blocking", "GET", [("X-FTL-SID", Json.str "sid1")], none⟩])
    ∧ Single.getStatus ⟨"http://localhost", "pw"⟩ 0
      ⟨some ⟨Json.str "sid1", Json.str "csrf1"⟩, 60000⟩
      [.ok ⟨401, none, Json.obj [("error", Json.str "unauth")]⟩] false =
      (.ok (Json.obj [("error", Json.str "unauth")]),
       ⟨some ⟨Json.str "sid1", Json.str "csrf1"⟩, 60000⟩, [],
       [⟨"http://localhost/api/dns/blocking", "GET", [("X-FTL-SID", Json.str "sid1")], none⟩]) := by
  constructor
  · exact (spec_C10_status_passthrough ⟨"http://localhost", "pw"⟩ 0
      ⟨Json.str "sid1", Json.str "csrf1"⟩ 60000 ⟨500, none, Json.obj [("error", Json.str "boom")]⟩
      [] (by norm_num) rfl).1 true (by norm_num)
  · exact (spec_C10_status_passthrough ⟨"http://localhost", "pw"⟩ 0
      ⟨Json.str "sid1", Json.str "csrf1"⟩ 60000 ⟨401, none, Json.obj [("error", Json.str "unauth")]⟩
      [] (by norm_num) rfl).2

/-! ## C9 -/

/-- C9: redirects are followed for at most 5 hops.  A chain of six
consecutive redirect responses makes `request` fail with the distinct
`Too many redirects` error after issuing exactly six requests (the
original plus five redirect targets); the seventh hop is never fetched,
so the remaining oracle is untouched.  (`request` is a total function of
its oracle, so every call terminates.) -/
theorem spec_C9_redirect_bound (url method : String) (headers : List (String × Json))
    (body : Option Json) (p0 p1 p2 p3 p4 p5 : Response) (l0 l1 l2 l3 l4 l5 : String)
    (rest : List NetRes)
    (hs0 : isRedirectStatus p0.status = true) (hl0 : p0.location = some l0)
    (hs1 : isRedirectStatus p1.status = true) (hl1 : p1.location = some l1)
    (hs2 : isRedirectStatus p2.status = true) (hl2 : p2.location = some l2)
    (hs3 : isRedirectStatus p3.status = true) (hl3 : p3.location = some l3)
    (hs4 : isRedirectStatus p4.status = true) (hl4 : p4.location = some l4)
    (hs5 : isRedirectStatus p5.status = true) (hl5 : p5.location = some l5) :
    request (.ok p0 :: .ok p1 :: .ok p2 :: .ok p3 :: .ok p4 :: .ok p5 :: rest)
        url method headers body 0 =
      (.error "Too many redirects", rest,
       [⟨url, method, headers, body⟩, ⟨l0, method, headers, body⟩,
        ⟨l1, method, headers, body⟩, ⟨l2, method, headers, body⟩,
        ⟨l3, method, headers, body⟩, ⟨l4, method, headers, body⟩]) := by
  have h6 : request rest l5 method headers body 6 = (.error "Too many redirects", rest, []) := by
    rw [request.eq_def]
    norm_num
  simp [request, hs0, hl0, hs1, hl1, hs2, hl2, hs3, hl3, hs4, hl4, hs5, hl5, h6]

/-- C9 witness: six 301 responses produce `Too many redirects` with
exactly six issued requests. -/
theorem spec_C9_redirect_bound_witness :
    request (List.replicate 6 (.ok ⟨301, some "http://r", Json.null⟩))
        "http://a" "GET" [] none 0 =
      (.error "Too many redirects", [],
       [⟨"http://a", "GET", [], none⟩, ⟨"http://r", "GET", [], none⟩,
        ⟨"http://r", "GET", [], none⟩, ⟨"http://r", "GET", [], none⟩,
        ⟨"http://r", "GET", [], none⟩, ⟨"http://r", "GET", [], none⟩]) := by
  exact spec_C9_redirect_bound "http://a" "GET" [] none
    ⟨301, some "http://r", Json.null⟩ ⟨301, some "http://r", Json.null⟩
    ⟨301, some "http://r", Json.null⟩ ⟨301, some "http://r", Json.null⟩
    ⟨301, some "http://r", Json.null⟩ ⟨301, some "http://r", Json.null⟩
    "http://r" "http://r" "http://r" "http://r" "http://r" "http://r" []
    rfl rfl rfl rfl rfl rfl rfl rfl rfl rfl rfl rfl

/-! ## C1 -/

/-- Double-401 status fetch: with a cached session, a 401 on the read
clears the cache and the whole fetch is retried exactly once with a fresh
login; the retried read's 401 response body is then returned as the
result (three requests total: read, login, read — no third read). -/
theorem single_getStatus_double401 (cfg : Single.Config) (now : Int) (s0 : Session)
    (exp : Int) (r1 a2 r2 : Response) (rest : List NetRes)
    (hv : now < exp - 30000)
    (h1 : r1.status = 401) (hl1 : r1.location = none)
    (ha : a2.status = 200) (hl2 : a2.location = none)
    (hav : ((a2.data.getOpt "session").getOpt "valid").truthy = true)
    (hl3 : r2.location = none) :
    Single.getStatus cfg now ⟨some s0, exp⟩ (.ok r1 :: .ok a2 :: .ok r2 :: rest) true =
      (.ok r2.data,
       ⟨some ⟨(a2.data.getOpt "session").getOpt "sid", (a2.data.getOpt "session").getOpt "csrf"⟩,
        now + (Json.numOr ((a2.data.getOpt "session").getOpt "validity") 300) * 1000⟩,
       rest,
       [⟨cfg.url ++ "/api/dns/blocking", "GET", [("X-FTL-SID", s0.sid)], none⟩,
        ⟨cfg.url ++ "/api/auth", "POST", [("Content-Type", Json.str "application/json")],
          some (Json.obj [("password", Json.str cfg.password)])⟩,
        ⟨cfg.url ++ "/api/dns/blocking", "GET",
          [("X-FTL-SID", (a2.data.getOpt "session").getOpt "sid")], none⟩]) := by
  have hinner : Single.getStatus cfg now ⟨none, 0⟩ (.ok a2 :: .ok r2 :: rest) false =
      (.ok r2.data,
       ⟨some ⟨(a2.data.getOpt "session").getOpt "sid", (a2.data.getOpt "session").getOpt "csrf"⟩,
        now + (Json.numOr ((a2.data.getOpt "session").getOpt "validity") 300) * 1000⟩,
       rest,
       [⟨cfg.url ++ "/api/auth", "POST", [("Content-Type", Json.str "application/json")],
          some (Json.obj [("password", Json.str cfg.password)])⟩,
        ⟨cfg.url ++ "/api/dns/blocking", "GET",
          [("X-FTL-SID", (a2.data.getOpt "session").getOpt "sid")], none⟩]) := by
    rw [Single.getStatus.eq_def]
    rw [single_authenticate_miss _ _ _ _ (Or.inl rfl)]
    rw [single_authLogin_ok cfg now _ a2 _ hl2 ha hav]
    dsimp only
    rw [request_ok r2 rest _ _ _ _ hl3]
    dsimp only
    rw [dif_neg (by simp)]
    rfl
  rw [Single.getStatus.eq_def]
  rw [single_authenticate_hit cfg now ⟨some s0, exp⟩ s0 _ rfl hv]
  dsimp only
  rw [request_ok r1 _ _ _ _ _ hl1]
  dsimp only
  rw [dif_pos ⟨h1, rfl⟩]
  rw [hinner]
  rfl

/-- Double-401 write: with a cached session, a 401 on the POST clears the
cache, the whole write is retried exactly once with a fresh login, and
the retried 401 (≠ 200) is surfaced as a `Failed to set blocking` error
(three requests total — no third POST to the blocking endpoint). -/
theorem single_setBlocking_double401 (cfg : Single.Config) (now : Int) (s0 : Session)
    (exp : Int) (r1 a2 r2 : Response) (rest : List NetRes)
    (enabled : Bool) (t : Option Int)
    (hv : now < exp - 30000)
    (h1 : r1.status = 401) (hl1 : r1.location = none)
    (ha : a2.status = 200) (hl2 : a2.location = none)
    (hav : ((a2.data.getOpt "session").getOpt "valid").truthy = true)
    (h2 : r2.status = 401) (hl3 : r2.location = none) :
    Single.setBlocking cfg now ⟨some s0, exp⟩ (.ok r1 :: .ok a2 :: .ok r2 :: rest)
        enabled t true =
      (.error ("Failed to set blocking: " ++ Json.stringify r2.data),
       ⟨some ⟨(a2.data.getOpt "session").getOpt "sid", (a2.data.getOpt "session").getOpt "csrf"⟩,
        now + (Json.numOr ((a2.data.getOpt "session").getOpt "validity") 300) * 1000⟩,
       rest,
       [⟨cfg.url ++ "/api/dns/blocking", "POST",
          [("Content-Type", Json.str "application/json"),
           ("X-FTL-SID", s0.sid), ("X-FTL-CSRF", s0.csrf)],
          some (Single.blockingBody enabled t)⟩,
        ⟨cfg.url ++ "/api/auth", "POST", [("Content-Type", Json.str "application/json")],
          some (Json.obj [("password", Json.str cfg.password)])⟩,
        ⟨cfg.url ++ "/api/dns/blocking", "POST",
          [("Content-Type", Json.str "application/json"),
           ("X-FTL-SID", (a2.data.getOpt "session").getOpt "sid"),
           ("X-FTL-CSRF", (a2.data.getOpt "session").getOpt "csrf")],
          some (Single.blockingBody enabled t)⟩]) := by
  have hinner : Single.setBlocking cfg now ⟨none, 0⟩ (.ok a2 :: .ok r2 :: rest)
      enabled t false =
      (.error ("Failed to set blocking: " ++ Json.stringify r2.data),
       ⟨some ⟨(a2.data.getOpt "session").getOpt "sid", (a2.data.getOpt "session").getOpt "csrf"⟩,
        now + (Json.numOr ((a2.data.getOpt "session").getOpt "validity") 300) * 1000⟩,
       rest,
       [⟨cfg.url ++ "/api/auth", "POST", [("Content-Type", Json.str "application/json")],
          some (Json.obj [("password", Json.str cfg.password)])⟩,
        ⟨cfg.url ++ "/api/dns/blocking", "POST",
          [("Content-Type", Json.str "application/json"),
           ("X-FTL-SID", (a2.data.getOpt "session").getOpt "sid"),
           ("X-FTL-CSRF", (a2.data.getOpt "session").getOpt "csrf")],
          some (Single.blockingBody enabled t)⟩]) := by
    rw [Single.setBlocking.eq_def]
    rw [single_authenticate_miss _ _ _ _ (Or.inl rfl)]
    rw [single_authLogin_ok cfg now _ a2 _ hl2 ha hav]
    dsimp only
    rw [request_ok r2 rest _ _ _ _ hl3]
    dsimp only
    rw [dif_neg (by simp)]
    rw [if_pos (by rw [h2]; norm_num)]
    rfl
  rw [Single.setBlocking.eq_def]
  rw [single_authenticate_hit cfg now ⟨some s0, exp⟩ s0 _ rfl hv]
  dsimp only
  rw [request_ok r1 _ _ _ _ _ hl1]
  dsimp only
  rw [dif_pos ⟨h1, rfl⟩]
  rw [hinner]
  rfl

/-- C1 counterexample: a status fetch whose first read and retried read
both return 401 does not surface a failure — the second 401 response body
is returned as the fetch's successful result, contradicting the claim
that the retried 401 is surfaced as a failure for status fetches. -/
theorem spec_C1_cex :
    (Single.getStatus ⟨"http://localhost", "pw"⟩ 0
      ⟨some ⟨Json.str "sid0", Json.str "csrf0"⟩, 60000⟩
      [.ok ⟨401, none, Json.obj [("error", Json.str "expired")]⟩,
       .ok ⟨200, none, Json.obj [("session", Json.obj [("valid", Json.bool true),
         ("sid", Json.str "sid2"), ("csrf", Json.str "csrf2"), ("validity", Json.num 300)])]⟩,
       .ok ⟨401, none, Json.obj [("error", Json.str "still unauthorized")]⟩]
      true).1 = .ok (Json.obj [("error", Json.str "still unauthorized")]) := by
  rw [single_getStatus_double401 ⟨"http://localhost", "pw"⟩ 0
    ⟨Json.str "sid0", Json.str "csrf0"⟩ 60000
    ⟨401, none, Json.obj [("error", Json.str "expired")]⟩
    ⟨200, none, Json.obj [("session", Json.obj [("valid", Json.bool true),
      ("sid", Json.str "sid2"), ("csrf", Json.str "csrf2"), ("validity", Json.num 300)])]⟩
    ⟨401, none, Json.obj [("error", Json.str "still unauthorized")]⟩ []
    (by norm_num) rfl rfl rfl rfl (by rfl) rfl]

/-- C1 amended: a 401 on the first authenticated attempt invalidates the
cached session and the operation is retried exactly once with a forced
re-authentication, and a second 401 triggers no further retry (three
upstream requests total, never a third read/write); the second 401 is
surfaced as a failure by `setBlocking`, while `getStatus` instead returns
the 401 response body as its result. -/
theorem spec_C1_amended (cfg : Single.Config) (now : Int) (s0 : Session)
    (exp : Int) (r1 a2 r2 : Response) (rest : List NetRes)
    (enabled : Bool) (t : Option Int)
    (hv : now < exp - 30000)
    (h1 : r1.status = 401) (hl1 : r1.location = none)
    (ha : a2.status = 200) (hl2 : a2.location = none)
    (hav : ((a2.data.getOpt "session").getOpt "valid").truthy = true)
    (h2 : r2.status = 401) (hl3 : r2.location = none) :
    Single.getStatus cfg now ⟨some s0, exp⟩ (.ok r1 :: .ok a2 :: .ok r2 :: rest) true =
      (.ok r2.data,
       ⟨some ⟨(a2.data.getOpt "session").getOpt "sid", (a2.data.getOpt "session").getOpt "csrf"⟩,
        now + (Json.numOr ((a2.data.getOpt "session").getOpt "validity") 300) * 1000⟩,
       rest,
       [⟨cfg.url ++ "/api/dns/blocking", "GET", [("X-FTL-SID", s0.sid)], none⟩,
        ⟨cfg.url ++ "/api/auth", "POST", [("Content-Type", Json.str "application/json")],
          some (Json.obj [("password", Json.str cfg.password)])⟩,
        ⟨cfg.url ++ "/api/dns/blocking", "GET",
          [("X-FTL-SID", (a2.data.getOpt "session").getOpt "sid")], none⟩])
    ∧ Single.setBlocking cfg now ⟨some s0, exp⟩ (.ok r1 :: .ok a2 :: .ok r2 :: rest)
        enabled t true =
      (.error ("Failed to set blocking: " ++ Json.stringify r2.data),
       ⟨some ⟨(a2.data.getOpt "session").getOpt "sid", (a2.data.getOpt "session").getOpt "csrf"⟩,
        now + (Json.numOr ((a2.data.getOpt "session").getOpt "validity") 300) * 1000⟩,
       rest,
       [⟨cfg.url ++ "/api/dns/blocking", "POST",
          [("Content-Type", Json.str "application/json"),
           ("X-FTL-SID", s0.sid), ("X-FTL-CSRF", s0.csrf)],
          some (Single.blockingBody enabled t)⟩,
        ⟨cfg.url ++ "/api/auth", "POST", [("Content-Type", Json.str "application/json")],
          some (Json.obj [("password", Json.str cfg.password)])⟩,
        ⟨cfg.url ++ "/api/dns/blocking", "POST",
          [("Content-Type", Json.str "application/json"),
           ("X-FTL-SID", (a2.data.getOpt "session").getOpt "sid"),
           ("X-FTL-CSRF", (a2.data.getOpt "session").getOpt "csrf")],
          some (Single.blockingBody enabled t)⟩]) :=
  ⟨single_getStatus_double401 cfg now s0 exp r1 a2 r2 rest hv h1 hl1 ha hl2 hav hl3,
   single_setBlocking_double401 cfg now s0 exp r1 a2 r2 rest enabled t hv h1 hl1 ha hl2 hav h2 hl3⟩

/-- C1 amended witness: concrete double-401 run — the status fetch makes
exactly three requests (read, forced re-login, retried read) and returns
the second 401 body as data; the write makes exactly three requests and
fails with `Failed to set blocking`. -/
theorem spec_C1_amended_witness :
    Single.getStatus ⟨"http://localhost", "pw"⟩ 0
      ⟨some ⟨Json.str "sid0", Json.str "csrf0"⟩, 60000⟩
      [.ok ⟨401, none, Json.obj [("error", Json.str "expired")]⟩,
       .ok ⟨200, none, Json.obj [("session", Json.obj [("valid", Json.bool true),
         ("sid", Json.str "sid2"), ("csrf", Json.str "csrf2"), ("validity", Json.num 300)])]⟩,
       .ok ⟨401, none, Json.obj [("error", Json.str "still")]⟩] true =
      (.ok (Json.obj [("error", Json.str "still")]),
       ⟨some ⟨Json.str "sid2", Json.str "csrf2"⟩, 300000⟩, [],
       [⟨"http://localhost/api/dns/blocking", "GET", [("X-FTL-SID", Json.str "sid0")], none⟩,
        ⟨"http://localhost/api/auth", "POST", [("Content-Type", Json.str "application/json")],
          some (Json.obj [("password", Json.str "pw")])⟩,
        ⟨"http://localhost/api/dns/blocking", "GET", [("X-FTL-SID", Json.str "sid2")], none⟩])
    ∧ Single.setBlocking ⟨"http://localhost", "pw"⟩ 0
      ⟨some ⟨Json.str "sid0", Json.str "csrf0"⟩, 60000⟩
      [.ok ⟨401, none, Json.obj [("error", Json.str "expired")]⟩,
       .ok ⟨200, none, Json.obj [("session", Json.obj [("valid", Json.bool true),
         ("sid", Json.str "sid2"), ("csrf", Json.str "csrf2"), ("validity", Json.num 300)])]⟩,
       .ok ⟨401, none, Json.obj [("error", Json.str "still")]⟩] false (some 60) true =
      (.error ("Failed to set blocking: " ++
        Json.stringify (Json.obj [("error", Json.str "still")])),
       ⟨some ⟨Json.str "sid2", Json.str "csrf2"⟩, 300000⟩, [],
       [⟨"http://localhost/api/dns/blocking", "POST",
          [("Content-Type", Json.str "application/json"),
           ("X-FTL-SID", Json.str "sid0"), ("X-FTL-CSRF", Json.str "csrf0")],
          some (Json.obj [("blocking", Json.bool false), ("timer", Json.num 60)])⟩,
        ⟨"http://localhost/api/auth", "POST", [("Content-Type", Json.str "application/json")],
          some (Json.obj [("password", Json.str "pw")])⟩,
        ⟨"http://localhost/api/dns/blocking", "POST",
          [("Content-Type", Json.str "application/json"),
           ("X-FTL-SID", Json.str "sid2"), ("X-FTL-CSRF", Json.str "csrf2")],
          some (Json.obj [("blocking", Json.bool false), ("timer", Json.num 60)])⟩]) := by
  have h := spec_C1_amended ⟨"http://localhost", "pw"⟩ 0
    ⟨Json.str "sid0", Json.str "csrf0"⟩ 60000
    ⟨401, none, Json.obj [("error", Json.str "expired")]⟩
    ⟨200, none, Json.obj [("session", Json.obj [("valid", Json.bool true),
      ("sid", Json.str "sid2"), ("csrf", Json.str "csrf2"), ("validity", Json.num 300)])]⟩
    ⟨401, none, Json.obj [("error", Json.str "still")]⟩ [] false (some 60)
    (by norm_num) rfl rfl rfl rfl (by rfl) rfl rfl
  refine ⟨?_, ?_⟩
  · rw [h.1]
    rfl
  · rw [h.2]
    rfl

/-! ## C4 -/

/-- Shape of `getInstanceStatus` with retry exhausted: either a success
record (no error, concrete blocking flag, the instance's name and URL) or
the catch clause's zeroed error record. -/
theorem multi_getInstanceStatus_shape_false (now : Int) (cache : Multi.Cache)
    (inst : Multi.PiholeInstance) (net : List NetRes) :
    ((Multi.getInstanceStatus now cache inst net false).1.error = none ∧
      (∃ b, (Multi.getInstanceStatus now cache inst net false).1.blocking = some b) ∧
      (Multi.getInstanceStatus now cache inst net false).1.name = inst.name ∧
      (Multi.getInstanceStatus now cache inst net false).1.url = inst.url)
    ∨ ∃ e, (Multi.getInstanceStatus now cache inst net false).1 =
        ⟨inst.name, inst.url, none, 0, 0, 0, 0, some e⟩ := by
  rcases hauth : Multi.authenticate now cache inst net with ⟨resA, c2, net2, log⟩
  rw [Multi.getInstanceStatus.eq_def, hauth]
  cases resA with
  | error e =>
    dsimp only
    right
    exact ⟨e, rfl⟩
  | ok s =>
    dsimp only
    rcases hreq1 : request net2 (inst.url ++ "/api/dns/blocking") "GET"
      [("X-FTL-SID", s.sid)] none 0 with ⟨res1, net3, log2⟩
    cases res1 with
    | error e =>
      dsimp only
      right
      exact ⟨e, rfl⟩
    | ok blockingRes =>
      dsimp only
      rcases hreq2 : request net3 (inst.url ++ "/api/stats/summary") "GET"
        [("X-FTL-SID", s.sid)] none 0 with ⟨res2, net4, log3⟩
      cases res2 with
      | error e =>
        dsimp only
        right
        exact ⟨e, rfl⟩
      | ok statsRes =>
        dsimp only
        rw [dif_neg (by simp)]
        cases hget : blockingRes.data.getE "blocking" with
        | error e =>
          dsimp only
          right
          exact ⟨e, rfl⟩
        | ok bf =>
          dsimp only
          left
          exact ⟨rfl, ⟨_, rfl⟩, rfl, rfl⟩

/-- Shape of `getInstanceStatus` for any retry flag: either a success
record or the catch clause's zeroed error record — never an exception. -/
theorem multi_getInstanceStatus_shape (now : Int) (cache : Multi.Cache)
    (inst : Multi.PiholeInstance) (net : List NetRes) (retry : Bool) :
    ((Multi.getInstanceStatus now cache inst net retry).1.error = none ∧
      (∃ b, (Multi.getInstanceStatus now cache inst net retry).1.blocking = some b) ∧
      (Multi.getInstanceStatus now cache inst net retry).1.name = inst.name ∧
      (Multi.getInstanceStatus now cache inst net retry).1.url = inst.url)
    ∨ ∃ e, (Multi.getInstanceStatus now cache inst net retry).1 =
        ⟨inst.name, inst.url, none, 0, 0, 0, 0, some e⟩ := by
  cases retry with
  | false => exact multi_getInstanceStatus_shape_false now cache inst net
  | true =>
    rcases hauth : Multi.authenticate now cache inst net with ⟨resA, c2, net2, log⟩
    rw [Multi.getInstanceStatus.eq_def, hauth]
    cases resA with
    | error e =>
      dsimp only
      right
      exact ⟨e, rfl⟩
    | ok s =>
      dsimp only
      rcases hreq1 : request net2 (inst.url ++ "/api/dns/blocking") "GET"
        [("X-FTL-SID", s.sid)] none 0 with ⟨res1, net3, log2⟩
      cases res1 with
      | error e =>
        dsimp only
        right
        exact ⟨e, rfl⟩
      | ok blockingRes =>
        dsimp only
        rcases hreq2 : request net3 (inst.url ++ "/api/stats/summary") "GET"
          [("X-FTL-SID", s.sid)] none 0 with ⟨res2, net4, log3⟩
        cases res2 with
        | error e =>
          dsimp only
          right
          exact ⟨e, rfl⟩
        | ok statsRes =>
          dsimp only
          split
          · dsimp only
            exact multi_getInstanceStatus_shape_false now
              (Multi.cacheDelete c2 inst.url) inst net4
          · cases hget : blockingRes.data.getE "blocking" with
            | error e =>
              dsimp only
              right
              exact ⟨e, rfl⟩
            | ok bf =>
              dsimp only
              left
              exact ⟨rfl, ⟨_, rfl⟩, rfl, rfl⟩

/-- C4: a status fetch never propagates a failure — for every cache
state, instance and network behaviour (rejections, timeouts, auth
failures, type errors on malformed bodies), `getInstanceStatus` returns a
status record, and on any failure it is exactly the record with
`blocking` null, zeroed metrics and `error` set to the failure message. -/
theorem spec_C4_status_never_propagates (now : Int) (cache : Multi.Cache)
    (inst : Multi.PiholeInstance) (net : List NetRes) (retry : Bool) :
    ((Multi.getInstanceStatus now cache inst net retry).1.error = none ∧
      (∃ b, (Multi.getInstanceStatus now cache inst net retry).1.blocking = some b))
    ∨ ∃ e, (Multi.getInstanceStatus now cache inst net retry).1 =
        ⟨inst.name, inst.url, none, 0, 0, 0, 0, some e⟩ := by
  rcases multi_getInstanceStatus_shape now cache inst net retry with ⟨h1, h2, _, _⟩ | h
  · exact Or.inl ⟨h1, h2⟩
  · exact Or.inr h

/-! ## C6 -/

/-- C6: after authenticating (here from a valid cached session), a status
fetch issues exactly two reads — `GET {base}/api/dns/blocking` and
`GET {base}/api/stats/summary`, both carrying `X-FTL-SID` — and its
result takes `totalQueries`, `blockedQueries` and `percentBlocked` from
the `queries.total` / `queries.blocked` / `queries.percent_blocked`
fields of the stats read. -/
theorem spec_C6_two_reads (now : Int) (cache : Multi.Cache) (inst : Multi.PiholeInstance)
    (entry : Multi.CacheEntry) (rb rs : Response) (rest : List NetRes) (retry : Bool)
    (fb qs : List (String × Json))
    (hc : Multi.cacheGet cache inst.url = some entry) (hv : now < entry.expiresAt - 30000)
    (hlb : rb.location = none) (hls : rs.location = none)
    (hnb : rb.status ≠ 401) (hns : rs.status ≠ 401)
    (hob : rb.data = Json.obj fb) (hoq : rs.data.getOpt "queries" = Json.obj qs) :
    Multi.getInstanceStatus now cache inst (.ok rb :: .ok rs :: rest) retry =
      (⟨inst.name, inst.url,
        some ((Json.lookupField fb "blocking").isStr "enabled"),
        Json.numOr (Json.lookupField fb "timer") 0,
        Json.numOr (Json.lookupField qs "total") 0,
        Json.numOr (Json.lookupField qs "blocked") 0,
        Json.numOr (Json.lookupField qs "percent_blocked") 0,
        none⟩, cache, rest,
       [⟨inst.url ++ "/api/dns/blocking", "GET", [("X-FTL-SID", entry.session.sid)], none⟩,
        ⟨inst.url ++ "/api/stats/summary", "GET", [("X-FTL-SID", entry.session.sid)], none⟩]) := by
  have hauth : Multi.authenticate now cache inst (.ok rb :: .ok rs :: rest) =
      (.ok entry.session, cache, .ok rb :: .ok rs :: rest, []) := by
    simp [Multi.authenticate, hc, hv]
  rw [Multi.getInstanceStatus.eq_def, hauth]
  dsimp only
  rw [request_ok rb _ _ _ _ _ hlb]
  dsimp only
  rw [request_ok rs rest _ _ _ _ hls]
  dsimp only
  rw [dif_neg (by simp [hnb, hns])]
  rw [hob, hoq]
  simp [Json.getE, Json.getOpt, Json.truthy]

/-- C6 witness: a concrete healthy fetch issues the two reads and
reports total 100, blocked 25, percent 25 from the stats body. -/
theorem spec_C6_two_reads_witness :
    Multi.getInstanceStatus 0
      [("http://p1", ⟨⟨Json.str "s1", Json.str "c1"⟩, 300000⟩)]
      ⟨"Primary", "http://p1", "pw"⟩
      [.ok ⟨200, none, Json.obj [("blocking", Json.str "enabled"), ("timer", Json.num 0)]⟩,
       .ok ⟨200, none, Json.obj [("queries", Json.obj [("total", Json.num 100),
         ("blocked", Json.num 25), ("percent_blocked", Json.num 25)])]⟩] true =
      (⟨"Primary", "http://p1", some true, 0, 100, 25, 25, none⟩,
       [("http://p1", ⟨⟨Json.str "s1", Json.str "c1"⟩, 300000⟩)], [],
       [⟨"http://p1/api/dns/blocking", "GET", [("X-FTL-SID", Json.str "s1")], none⟩,
        ⟨"http://p1/api/stats/summary", "GET", [("X-FTL-SID", Json.str "s1")], none⟩]) := by
  rw [spec_C6_two_reads 0
    [("http://p1", ⟨⟨Json.str "s1", Json.str "c1"⟩, 300000⟩)]
    ⟨"Primary", "http://p1", "pw"⟩
    ⟨⟨Json.str "s1", Json.str "c1"⟩, 300000⟩
    ⟨200, none, Json.obj [("blocking", Json.str "enabled"), ("timer", Json.num 0)]⟩
    ⟨200, none, Json.obj [("queries", Json.obj [("total", Json.num 100),
      ("blocked", Json.num 25), ("percent_blocked", Json.num 25)])]⟩
    [] true
    [("blocking", Json.str "enabled"), ("timer", Json.num 0)]
    [("total", Json.num 100), ("blocked", Json.num 25), ("percent_blocked", Json.num 25)]
    rfl (by norm_num) rfl rfl (by norm_num) (by norm_num) rfl rfl]
  rfl

/-! ## C5 -/

/-- Unfolding `getAllStatus` over a non-empty instance list. -/
theorem multi_getAllStatus_cons (now : Int) (cache : Multi.Cache)
    (x : Multi.PiholeInstance × List NetRes)
    (rest : List (Multi.PiholeInstance × List NetRes)) :
    Multi.getAllStatus now cache (x :: rest) =
      ((Multi.getInstanceStatus now cache x.1 x.2 true).1 ::
        (Multi.getAllStatus now (Multi.getInstanceStatus now cache x.1 x.2 true).2.1 rest).1,
       (Multi.getAllStatus now (Multi.getInstanceStatus now cache x.1 x.2 true).2.1 rest).2) := by
  obtain ⟨inst, net⟩ := x
  rfl

/-- `getAllStatus` yields exactly one result per configured instance. -/
theorem multi_getAllStatus_length (now : Int) :
    ∀ (inputs : List (Multi.PiholeInstance × List NetRes)) (cache : Multi.Cache),
    (Multi.getAllStatus now cache inputs).1.length = inputs.length := by
  intro inputs
  induction inputs with
  | nil => intro cache; rfl
  | cons x rest ih =>
    intro cache
    rw [multi_getAllStatus_cons]
    simp [ih]

/-- The i-th entry of `getAllStatus` is exactly the status fetch of the
i-th configured instance (run against the cache state threaded past the
first i instances), independent of the other instances' outcomes. -/
theorem multi_getAllStatus_get (now : Int) :
    ∀ (inputs : List (Multi.PiholeInstance × List NetRes)) (cache : Multi.Cache)
      (i : Nat) (hi : i < inputs.length),
    ∃ hr : i < (Multi.getAllStatus now cache inputs).1.length,
      (Multi.getAllStatus now cache inputs).1.get ⟨i, hr⟩ =
        (Multi.getInstanceStatus now (Multi.getAllStatus now cache (inputs.take i)).2
          (inputs.get ⟨i, hi⟩).1 (inputs.get ⟨i, hi⟩).2 true).1 := by
  intro inputs
  induction inputs with
  | nil =>
    intro cache i hi
    exact absurd hi (by simp)
  | cons x rest ih =>
    intro cache i hi
    obtain ⟨inst, net⟩ := x
    cases i with
    | zero =>
      refine ⟨by rw [multi_getAllStatus_length]; exact hi, ?_⟩
      rfl
    | succ n =>
      have hn : n < rest.length := by simpa using hi
      obtain ⟨hr, hmain⟩ :=
        ih (Multi.getInstanceStatus now cache inst net true).2.1 n hn
      refine ⟨by rw [multi_getAllStatus_length]; exact hi, ?_⟩
      simp only [List.take_succ_cons, multi_getAllStatus_cons, List.get_cons_succ]
      exact hmain

/-- C5: `getAllStatus` over N configured instances returns exactly N
results in configuration order: the i-th entry carries the i-th
instance's name and URL, equals that instance's own status fetch (so no
other instance's failure can prevent or remove it), and is either a
success record (`error = none`, concrete blocking flag) or that
instance's zeroed error record. -/
theorem spec_C5_fanout (now : Int) (cache : Multi.Cache)
    (inputs : List (Multi.PiholeInstance × List NetRes)) :
    (Multi.getAllStatus now cache inputs).1.length = inputs.length
    ∧ ∀ i (hi : i < inputs.length),
      ∃ hr : i < (Multi.getAllStatus now cache inputs).1.length,
        ((Multi.getAllStatus now cache inputs).1.get ⟨i, hr⟩).name =
            (inputs.get ⟨i, hi⟩).1.name
        ∧ ((Multi.getAllStatus now cache inputs).1.get ⟨i, hr⟩).url =
            (inputs.get ⟨i, hi⟩).1.url
        ∧ (Multi.getAllStatus now cache inputs).1.get ⟨i, hr⟩ =
            (Multi.getInstanceStatus now (Multi.getAllStatus now cache (inputs.take i)).2
              (inputs.get ⟨i, hi⟩).1 (inputs.get ⟨i, hi⟩).2 true).1
        ∧ ((((Multi.getAllStatus now cache inputs).1.get ⟨i, hr⟩).error = none ∧
              ∃ b, ((Multi.getAllStatus now cache inputs).1.get ⟨i, hr⟩).blocking = some b)
            ∨ ∃ e, (Multi.getAllStatus now cache inputs).1.get ⟨i, hr⟩ =
                ⟨(inputs.get ⟨i, hi⟩).1.name, (inputs.get ⟨i, hi⟩).1.url,
                 none, 0, 0, 0, 0, some e⟩) := by
  refine ⟨multi_getAllStatus_length now inputs cache, ?_⟩
  intro i hi
  obtain ⟨hr, hmain⟩ := multi_getAllStatus_get now inputs cache i hi
  refine ⟨hr, ?_, ?_, hmain, ?_⟩
  · rw [hmain]
    rcases multi_getInstanceStatus_shape now
        (Multi.getAllStatus now cache (inputs.take i)).2
        (inputs.get ⟨i, hi⟩).1 (inputs.get ⟨i, hi⟩).2 true with ⟨_, _, hn, _⟩ | ⟨e, he⟩
    · exact hn
    · rw [he]
  · rw [hmain]
    rcases multi_getInstanceStatus_shape now
        (Multi.getAllStatus now cache (inputs.take i)).2
        (inputs.get ⟨i, hi⟩).1 (inputs.get ⟨i, hi⟩).2 true with ⟨_, _, _, hu⟩ | ⟨e, he⟩
    · exact hu
    · rw [he]
  · rw [hmain]
    rcases multi_getInstanceStatus_shape now
        (Multi.getAllStatus now cache (inputs.take i)).2
        (inputs.get ⟨i, hi⟩).1 (inputs.get ⟨i, hi⟩).2 true with ⟨h1, h2, _, _⟩ | ⟨e, he⟩
    · exact Or.inl ⟨h1, h2⟩
    · exact Or.inr ⟨e, he⟩

/-- C5 witness: two instances, A healthy and B unreachable — the
aggregate has exactly two entries and the second still reports B. -/
theorem spec_C5_fanout_witness :
    (Multi.getAllStatus 0 []
      [(⟨"A", "http://a", "pa"⟩,
        [.ok ⟨200, none, Json.obj [("session", Json.obj [("valid", Json.bool true),
          ("sid", Json.str "sa"), ("csrf", Json.str "ca"), ("validity", Json.num 300)])]⟩,
         .ok ⟨200, none, Json.obj [("blocking", Json.str "enabled"), ("timer", Json.num 0)]⟩,
         .ok ⟨200, none, Json.obj [("queries", Json.obj [("total", Json.num 100),
           ("blocked", Json.num 25), ("percent_blocked", Json.num 25)])]⟩]),
       (⟨"B", "http://b", "pb"⟩, [.error "connect ECONNREFUSED"])]).1.length = 2
    ∧ ∃ hr : 1 < (Multi.getAllStatus 0 []
      [(⟨"A", "http://a", "pa"⟩,
        [.ok ⟨200, none, Json.obj [("session", Json.obj [("valid", Json.bool true),
          ("sid", Json.str "sa"), ("csrf", Json.str "ca"), ("validity", Json.num 300)])]⟩,
         .ok ⟨200, none, Json.obj [("blocking", Json.str "enabled"), ("timer", Json.num 0)]⟩,
         .ok ⟨200, none, Json.obj [("queries", Json.obj [("total", Json.num 100),
           ("blocked", Json.num 25), ("percent_blocked", Json.num 25)])]⟩]),
       (⟨"B", "http://b", "pb"⟩, [.error "connect ECONNREFUSED"])]).1.length,
      ((Multi.getAllStatus 0 []
        [(⟨"A", "http://a", "pa"⟩,
          [.ok ⟨200, none, Json.obj [("session", Json.obj [("valid", Json.bool true),
            ("sid", Json.str "sa"), ("csrf", Json.str "ca"), ("validity", Json.num 300)])]⟩,
           .ok ⟨200, none, Json.obj [("blocking", Json.str "enabled"), ("timer", Json.num 0)]⟩,
           .ok ⟨200, none, Json.obj [("queries", Json.obj [("total", Json.num 100),
             ("blocked", Json.num 25), ("percent_blocked", Json.num 25)])]⟩]),
         (⟨"B", "http://b", "pb"⟩, [.error "connect ECONNREFUSED"])]).1.get ⟨1, hr⟩).name = "B" := by
  have h := spec_C5_fanout 0 []
    [(⟨"A", "http://a", "pa"⟩,
      [.ok ⟨200, none, Json.obj [("session", Json.obj [("valid", Json.bool true),
        ("sid", Json.str "sa"), ("csrf", Json.str "ca"), ("validity", Json.num 300)])]⟩,
       .ok ⟨200, none, Json.obj [("blocking", Json.str "enabled"), ("timer", Json.num 0)]⟩,
       .ok ⟨200, none, Json.obj [("queries", Json.obj [("total", Json.num 100),
         ("blocked", Json.num 25), ("percent_blocked", Json.num 25)])]⟩]),
     (⟨"B", "http://b", "pb"⟩, [.error "connect ECONNREFUSED"])]
  refine ⟨h.1, ?_⟩
  obtain ⟨hr, hn, _⟩ := h.2 1 (by norm_num)
  exact ⟨hr, hn⟩
